import Mathlib

/-!
Shallow embedding of the UMA resource-server middleware and provider
protocol engine (packages `uma` and `rp` of pckhoi/uma-codegen).

The embedding follows the Go source:
* `src/resource_middleware.go` — the middleware and its provider cache
  (`middleware.getProvider`, `ResourceMiddleware`).
* `src/pkg/rp/keycloak.go` — the `KeycloakClient` RPT exchange and the
  shared `baseProvider` protocol engine (`registerResource`,
  `RegisterResource`, `RequestPermissionTicket`, `Realm`).

Go maps are embedded as association lists; pointer mutation is embedded
as explicit state passing; `panic` is embedded as an explicit outcome
constructor; the outbound HTTP transport (`DoRequest`,
`PostFormUrlencoded`) is a function parameter (`respond`), so that the
number of network calls an operation makes is an observable of the
embedding.  Helpers of this repository that are not under `src/`
(`ensure2XX`, `jsonRequest`, `decodeJSONResponse`, `urlencode.ToValues`)
are modelled from the spec and carry a doc comment saying so.
-/

namespace Uma

/-- JSON values, used for protocol request and response bodies. -/
inductive Json where
  | str : String → Json
  | num : Int → Json
  | bool : Bool → Json
  | arr : List Json → Json
  | obj : List (String × Json) → Json
deriving Repr

/-- Association-list embedding of a Go map lookup (`v, ok := m[k]`). -/
def mapLookup {α : Type} : List (String × α) → String → Option α
  | [], _ => none
  | (a, b) :: rest, k => if a = k then some b else mapLookup rest k

/-- Association-list embedding of a Go map insert (`m[k] = v`): replaces
the binding of `k` if present, appends otherwise. -/
def mapInsert {α : Type} : List (String × α) → String → α → List (String × α)
  | [], k, v => [(k, v)]
  | (a, b) :: rest, k, v =>
    if a = k then (a, v) :: rest else (a, b) :: mapInsert rest k v

/-- Errors of the protocol engine, following the spec's taxonomy (§7):
transport failure, non-success protocol status (carrying status and
body), malformed response body. -/
inductive UmaError where
  | transport : String → UmaError
  | protocolError : Nat → Json → UmaError
  | decodeError : UmaError
deriving Repr

/-- Field lookup in a JSON object field list. -/
def lookupField : List (String × Json) → String → Option Json
  | [], _ => none
  | (a, b) :: rest, k => if a = k then some b else lookupField rest k

/-- ResourceType, from the `uma` package: resource category URI, icon and
scope names (fields `Type`, `IconUri`, `ResourceScopes`). -/
structure ResourceType where
  type : String
  iconUri : String
  resourceScopes : List String
deriving Repr, DecidableEq

/-- Resource (`UMAResource`), from the `uma` package: `ID` is empty until
assigned by a successful registration, `Name` is the idempotency key. -/
structure Resource where
  rtype : ResourceType
  name : String
  uri : String
  id : String
deriving Repr, DecidableEq

/-- UMADiscovery: endpoints populated by the one-time discovery call. -/
structure UMADiscovery where
  resourceRegistrationEndpoint : String
  permissionEndpoint : String
  tokenEndpoint : String
deriving Repr, DecidableEq

/-- The shared `baseProvider` of the `uma` package: issuer, client
credentials, discovered endpoints and the local idempotency cache
`registeredResources : map[string]string` (Name → ID). -/
structure BaseProvider where
  issuer : String
  clientID : String
  clientSecret : String
  umaDiscovery : UMADiscovery
  registeredResources : List (String × String)
deriving Repr, DecidableEq

/-- An outbound protocol request as built by `jsonRequest`: method, URL
and a JSON body. -/
structure HttpRequest where
  method : String
  url : String
  jsonBody : Json
deriving Repr

/-- An HTTP response: status code and JSON body. -/
structure HttpResponse where
  statusCode : Nat
  body : Json
deriving Repr

/-- Modelled from the spec: `jsonRequest` (not under `src/`) builds a
request for the given method and endpoint whose body is the JSON
encoding of the payload. -/
def jsonRequest (method url : String) (body : Json) : HttpRequest :=
  { method := method, url := url, jsonBody := body }

/-- Success statuses are the 2XX range. -/
def is2XX (status : Nat) : Bool :=
  decide (200 ≤ status) && decide (status < 300)

/-- Modelled from the spec: `ensure2XX` (not under `src/`); "any
non-success status is a protocol error carrying status and body" (§4.3,
§7). -/
def ensure2XX (resp : HttpResponse) : Except UmaError Unit :=
  if is2XX resp.statusCode then Except.ok ()
  else Except.error (UmaError.protocolError resp.statusCode resp.body)

/-- Modelled from the spec: `decodeJSONResponse` into
`createResourceResponse{ID string json:_id}`; the success response is
`{"_id": "<id>"}` (§6).  Go JSON decoding yields the field's string when
present, the zero value when the field is absent, and an error when the
body is not an object or the field has the wrong type. -/
def decodeCreatedID (j : Json) : Except UmaError String :=
  match j with
  | Json.obj fields =>
    match lookupField fields "_id" with
    | some (Json.str s) => Except.ok s
    | some _ => Except.error UmaError.decodeError
    | none => Except.ok ""
  | _ => Except.error UmaError.decodeError

/-- Modelled from the spec: `decodeJSONResponse` into
`permissionResponse{Ticket string json:ticket}`; the success response is
`{"ticket": "<ticket>"}` (§6). -/
def decodeTicket (j : Json) : Except UmaError String :=
  match j with
  | Json.obj fields =>
    match lookupField fields "ticket" with
    | some (Json.str s) => Except.ok s
    | some _ => Except.error UmaError.decodeError
    | none => Except.ok ""
  | _ => Except.error UmaError.decodeError

/-- Modelled from the spec: the JSON encoding of a resource body sent to
the registration endpoint — "Resource (name, type, scopes, icon, uri)"
(§6).  The exact field layout is opaque to every claim; only that the
body is a function of the resource matters. -/
def resourceToJson (r : Resource) : Json :=
  Json.obj [("type", Json.str r.rtype.type),
            ("icon_uri", Json.str r.rtype.iconUri),
            ("resource_scopes", Json.arr (r.rtype.resourceScopes.map Json.str)),
            ("name", Json.str r.name),
            ("uri", Json.str r.uri)]

/-- Outcome of `baseProvider.registerResource`: the returned
`(resourceID, err)` pair, the idempotency cache after the call, and how
many times the `register` closure (one network POST) was invoked. -/
structure RegisterResourceOutcome where
  result : Except UmaError String
  cache : List (String × String)
  networkCalls : Nat
deriving Repr

/-- `baseProvider.registerResource` (keycloak.go): on a cache hit return
the cached ID without calling `register`; on a miss call `register`,
propagate its error without caching, and on success cache and return the
new ID. -/
def registerResource (cache : List (String × String)) (name : String)
    (register : Except UmaError String) : RegisterResourceOutcome :=
  match mapLookup cache name with
  | some s => { result := Except.ok s, cache := cache, networkCalls := 0 }
  | none =>
    match register with
    | Except.error e =>
      { result := Except.error e, cache := cache, networkCalls := 1 }
    | Except.ok resourceID =>
      { result := Except.ok resourceID,
        cache := mapInsert cache name resourceID,
        networkCalls := 1 }

/-- The registration request built inside `RegisterResource`:
`jsonRequest(POST, p.UMADiscovery.ResourceRegistrationEndpoint, resource)`. -/
def registrationRequest (p : BaseProvider) (resource : Resource) : HttpRequest :=
  jsonRequest "POST" p.umaDiscovery.resourceRegistrationEndpoint (resourceToJson resource)

/-- The `register` closure passed to `registerResource` by
`RegisterResource`: POST the resource body, require a 2XX status, decode
the created `_id`.  `respond` is the transport (`DoRequest`). -/
def registerCall (p : BaseProvider) (resource : Resource)
    (respond : HttpRequest → Except UmaError HttpResponse) : Except UmaError String :=
  match respond (registrationRequest p resource) with
  | Except.error e => Except.error e
  | Except.ok resp =>
    match ensure2XX resp with
    | Except.error e => Except.error e
    | Except.ok _ => decodeCreatedID resp.body

/-- Result of `baseProvider.RegisterResource`: the returned error (if
any), the resource after the call (Go mutates `resource.ID` through a
pointer), the provider after the call (its `registeredResources` cache),
and the number of registration network calls performed. -/
structure RegisterResult where
  err : Option UmaError
  resource : Resource
  provider : BaseProvider
  networkCalls : Nat
deriving Repr

/-- `baseProvider.RegisterResource` (keycloak.go): run `registerResource`
with the registration POST as the `register` closure; on error return it
leaving `resource.ID` untouched; on success set `resource.ID` to the
returned ID. -/
def RegisterResource (p : BaseProvider) (resource : Resource)
    (respond : HttpRequest → Except UmaError HttpResponse) : RegisterResult :=
  let o := registerResource p.registeredResources resource.name (registerCall p resource respond)
  match o.result with
  | Except.error e =>
    { err := some e, resource := resource,
      provider := { p with registeredResources := o.cache },
      networkCalls := o.networkCalls }
  | Except.ok rid =>
    { err := none, resource := { resource with id := rid },
      provider := { p with registeredResources := o.cache },
      networkCalls := o.networkCalls }

/-- `permissionRequest` JSON encoding: exactly the fields `resource_id`
and `resource_scopes` (keycloak.go struct tags). -/
def permissionRequestToJson (resourceID : String) (scopes : List String) : Json :=
  Json.obj [("resource_id", Json.str resourceID),
            ("resource_scopes", Json.arr (scopes.map Json.str))]

/-- The request built by `RequestPermissionTicket`: a POST of a
single-element array to the discovered permission endpoint. -/
def permissionTicketRequest (p : BaseProvider) (resourceID : String)
    (scopes : List String) : HttpRequest :=
  jsonRequest "POST" p.umaDiscovery.permissionEndpoint
    (Json.arr [permissionRequestToJson resourceID scopes])

/-- `baseProvider.RequestPermissionTicket` (keycloak.go): POST the
single-element permission array, require a 2XX status, decode and return
the `ticket` field.  The Go method writes no provider state, so the
embedding returns only the ticket result. -/
def RequestPermissionTicket (p : BaseProvider) (resourceID : String)
    (scopes : List String)
    (respond : HttpRequest → Except UmaError HttpResponse) : Except UmaError String :=
  match respond (permissionTicketRequest p resourceID scopes) with
  | Except.error e => Except.error e
  | Except.ok resp =>
    match ensure2XX resp with
    | Except.error e => Except.error e
    | Except.ok _ => decodeTicket resp.body

/-- Outcome of calling a method that may panic. -/
inductive RealmResult where
  | panicked : String → RealmResult
  | value : String → RealmResult
deriving Repr, DecidableEq

/-- `baseProvider.Realm` (keycloak.go): `panic("Realm unimplemented")`. -/
def baseProviderRealm (_p : BaseProvider) : RealmResult :=
  RealmResult.panicked "Realm unimplemented"

/-- `baseProvider.AuthorizationServerURI` (keycloak.go): returns the
issuer. -/
def authorizationServerURI (p : BaseProvider) : String :=
  p.issuer

/-- The `Provider` capability set (interface in the `uma` package):
`DiscoverUMA`, `DoRequest`, `RegisterResource`,
`RequestPermissionTicket`, `Realm`, `AuthorizationServerURI` (plus
`KeySet`).  `Realm` is listed so that membership of `Realm` in the
capability set is a fact of the embedding. -/
inductive ProviderCapability where
  | verifySignature
  | discoverUMA
  | doRequest
  | registerResourceCap
  | requestPermissionTicket
  | realm
  | authorizationServerURICap
deriving Repr, DecidableEq

/-- The capability list of the `Provider` interface, in source order. -/
def providerCapabilities : List ProviderCapability :=
  [ProviderCapability.verifySignature, ProviderCapability.discoverUMA,
   ProviderCapability.doRequest, ProviderCapability.registerResourceCap,
   ProviderCapability.requestPermissionTicket, ProviderCapability.realm,
   ProviderCapability.authorizationServerURICap]

/-! ### KeycloakClient and the RPT exchange (`rp` package) -/

/-- `KeycloakClient` (keycloak.go): client credentials plus the OIDC
token endpoint (the `oidc.Provider` collaborator is out of scope; only
its token URL is consumed). -/
structure KeycloakClient where
  clientID : String
  clientSecret : String
  tokenURL : String
deriving Repr, DecidableEq

/-- `Credentials` (keycloak.go): the token-endpoint response shape. -/
structure Credentials where
  idToken : String
  accessToken : String
  refreshToken : String
deriving Repr, DecidableEq

/-- `RPTRequest` (keycloak.go): parameters of the UMA ticket grant.  All
fields are optional; the zero value of each marks it as not provided. -/
structure RPTRequest where
  ticket : String
  claimToken : String
  claimTokenFormat : String
  rpt : String
  permission : List String
  audience : String
  responseIncludeResourceName : Bool
  responsePermissionsLimit : Nat
  submitRequest : Bool
deriving Repr, DecidableEq

/-- Lookup in form values (`url.Values` is a Go `map[string][]string`). -/
def getValue : List (String × List String) → String → Option (List String)
  | [], _ => none
  | (a, b) :: rest, k => if a = k then some b else getValue rest k

/-- Remove every binding of a key from form values. -/
def removeKey : List (String × List String) → String → List (String × List String)
  | [], _ => []
  | (a, b) :: rest, k => if a = k then removeKey rest k else (a, b) :: removeKey rest k

/-- `url.Values.Set`: replace the bindings of `k` with the single value. -/
def setValue (vs : List (String × List String)) (k : String) (v : List String) :
    List (String × List String) :=
  (k, v) :: removeKey vs k

/-- Modelled from the spec: `urlencode.ToValues` (not under `src/`)
encodes the provided fields of an `RPTRequest` as form values; "All
parameters not provided are omitted from the request, not sent as empty
values" (§4.3).  The `RPT` field carries the explicit form key `rpt`
(struct tag in keycloak.go); the remaining keys follow the Keycloak
parameter names of the fields. -/
def toValues (r : RPTRequest) : List (String × List String) :=
  (if r.ticket = "" then [] else [("ticket", [r.ticket])]) ++
  (if r.claimToken = "" then [] else [("claim_token", [r.claimToken])]) ++
  (if r.claimTokenFormat = "" then [] else [("claim_token_format", [r.claimTokenFormat])]) ++
  (if r.rpt = "" then [] else [("rpt", [r.rpt])]) ++
  (if r.permission = [] then [] else [("permission", r.permission)]) ++
  (if r.audience = "" then [] else [("audience", [r.audience])]) ++
  (if r.responseIncludeResourceName = false then []
   else [("response_include_resource_name", ["true"])]) ++
  (if r.responsePermissionsLimit = 0 then []
   else [("response_permissions_limit", [toString r.responsePermissionsLimit])]) ++
  (if r.submitRequest = false then [] else [("submit_request", ["true"])])

/-- A form-urlencoded POST as issued by `PostFormUrlencoded`: target
URL, optional Authorization header, form values. -/
structure FormRequest where
  url : String
  authorization : Option String
  form : List (String × List String)
deriving Repr

/-- The request built by `KeycloakClient.RequestRPT`: the encoded
`RPTRequest` with `grant_type` set to the UMA ticket grant, posted to
the token endpoint with the bearer access token. -/
def rptFormRequest (kc : KeycloakClient) (accessToken : String)
    (request : RPTRequest) : FormRequest :=
  { url := kc.tokenURL,
    authorization := some ("Bearer " ++ accessToken),
    form := setValue (toValues request) "grant_type"
      ["urn:ietf:params:oauth:grant-type:uma-ticket"] }

/-- `KeycloakClient.RequestRPT` (keycloak.go): encode the request, set
`grant_type`, POST with the bearer token, decode a `Credentials` and
return its `access_token`.  `respond` is the transport plus JSON
decoding (`PostFormUrlencoded` / `DecodeJSONResponse`, not under
`src/`). -/
def RequestRPT (kc : KeycloakClient) (accessToken : String) (request : RPTRequest)
    (respond : FormRequest → Except UmaError Credentials) : Except UmaError String :=
  match respond (rptFormRequest kc accessToken request) with
  | Except.error e => Except.error e
  | Except.ok tok => Except.ok tok.accessToken

/-! ### The middleware and its provider cache (`resource_middleware.go`) -/

/-- `ProviderInfo` (uma package): issuer, provider-type tag and client
credentials (the key set is out of scope for the cache logic). -/
structure ProviderInfo where
  issuer : String
  ptype : String
  clientID : String
  clientSecret : String
deriving Repr, DecidableEq

/-- A Provider as constructed by the middleware
(`keycloakProvider{baseProvider: newBaseProvider(...)}`), reduced to the
fields the cache logic can observe. -/
structure MProvider where
  issuer : String
  clientID : String
  clientSecret : String
deriving Repr, DecidableEq

/-- The construction performed in the `case Keycloak` branch of
`middleware.getProvider`. -/
def mkKeycloakProvider (pinfo : ProviderInfo) : MProvider :=
  { issuer := pinfo.issuer, clientID := pinfo.clientID,
    clientSecret := pinfo.clientSecret }

/-- The middleware's mutable state: the `providers map[string]Provider`
cache keyed by issuer. -/
structure MwState where
  providers : List (String × MProvider)
deriving Repr, DecidableEq

/-- A fresh middleware instance (`providers: map[string]Provider{}`). -/
def middlewareInit : MwState := { providers := [] }

/-- Reasons the middleware's handler panics. -/
inductive PanicReason where
  | unsupportedProviderType : String → PanicReason
  | discoveryError : UmaError → PanicReason
  | registrationError : UmaError → PanicReason
deriving Repr

/-- Outcome of `middleware.getProvider`: either a Provider bound to the
request, or a panic. -/
inductive GPOutcome where
  | bound : MProvider → GPOutcome
  | panicked : PanicReason → GPOutcome
deriving Repr

/-- Result of one `middleware.getProvider` call: outcome, cache state
after the call, and how many Provider constructions and `DiscoverUMA`
calls it performed. -/
structure GPResult where
  outcome : GPOutcome
  st : MwState
  constructions : Nat
  discoveries : Nat
deriving Repr

/-- `middleware.getProvider` (resource_middleware.go): on a cache hit
return the cached Provider; on a miss construct one for a supported
type (panicking on an unsupported type), insert it into the cache, and
only then call `DiscoverUMA`, panicking on a discovery error — the
insertion is not undone.  `discover` is the `DiscoverUMA` outcome per
issuer. -/
def getProvider (st : MwState) (pinfo : ProviderInfo)
    (discover : String → Except UmaError Unit) : GPResult :=
  match mapLookup st.providers pinfo.issuer with
  | some v => { outcome := GPOutcome.bound v, st := st, constructions := 0, discoveries := 0 }
  | none =>
    if pinfo.ptype = "keycloak" then
      let p := mkKeycloakProvider pinfo
      let st1 : MwState := { providers := mapInsert st.providers pinfo.issuer p }
      match discover pinfo.issuer with
      | Except.error e =>
        { outcome := GPOutcome.panicked (PanicReason.discoveryError e), st := st1,
          constructions := 1, discoveries := 1 }
      | Except.ok _ =>
        { outcome := GPOutcome.bound p, st := st1, constructions := 1, discoveries := 1 }
    else
      { outcome := GPOutcome.panicked (PanicReason.unsupportedProviderType pinfo.ptype),
        st := st, constructions := 0, discoveries := 0 }

/-- An inbound request: its path and the context value stashed by
`setProvider` (`r.WithContext(context.WithValue(...))`). -/
structure Request where
  path : String
  provider : Option MProvider
deriving Repr, DecidableEq

/-- `setProvider` (uma package): stash the Provider in the request's
context. -/
def setProviderOnRequest (r : Request) (p : MProvider) : Request :=
  { r with provider := some p }

/-- Result of the middleware handler on one request: the request passed
to `next.ServeHTTP` (none when the handler panicked first), the panic
reason if any, the cache state after the request, and the number of
constructions, discoveries and `RegisterResource` calls performed. -/
structure HandlerResult where
  downstream : Option Request
  panicReason : Option PanicReason
  st : MwState
  constructions : Nat
  discoveries : Nat
  registrations : Nat
deriving Repr

/-- The handler returned by `ResourceMiddleware`
(resource_middleware.go): match the request; if a Resource was
produced, resolve the provider and call `RegisterResource`, panicking
on a registration error; finally call `next.ServeHTTP` with the
(possibly rewritten) request.  `matchFn` is the resource matcher
(`m.rm.match`), `getPInfo` is `m.getProviderInfo`, `register` is the
bound Provider's `RegisterResource` outcome. -/
def handleRequest (st : MwState)
    (matchFn : Request → Request × Option Resource)
    (getPInfo : Request → ProviderInfo)
    (discover : String → Except UmaError Unit)
    (register : MProvider → Resource → Option UmaError)
    (r : Request) : HandlerResult :=
  match matchFn r with
  | (r1, none) =>
    { downstream := some r1, panicReason := none, st := st,
      constructions := 0, discoveries := 0, registrations := 0 }
  | (r1, some resource) =>
    let g := getProvider st (getPInfo r1) discover
    match g.outcome with
    | GPOutcome.panicked reason =>
      { downstream := none, panicReason := some reason, st := g.st,
        constructions := g.constructions, discoveries := g.discoveries,
        registrations := 0 }
    | GPOutcome.bound p =>
      match register p resource with
      | some e =>
        { downstream := none, panicReason := some (PanicReason.registrationError e),
          st := g.st, constructions := g.constructions, discoveries := g.discoveries,
          registrations := 1 }
      | none =>
        { downstream := some (setProviderOnRequest r1 p), panicReason := none,
          st := g.st, constructions := g.constructions, discoveries := g.discoveries,
          registrations := 1 }

/-- Provider constructions performed for a given issuer over a sequence
of `getProvider` calls, threading the cache state. -/
def constructionsFor (discover : String → Except UmaError Unit) (issuer : String) :
    List ProviderInfo → MwState → Nat
  | [], _ => 0
  | pinfo :: rest, st =>
    let g := getProvider st pinfo discover
    (if pinfo.issuer = issuer then g.constructions else 0)
      + constructionsFor discover issuer rest g.st

/-- `DiscoverUMA` calls performed for a given issuer over a sequence of
`getProvider` calls, threading the cache state. -/
def discoveriesFor (discover : String → Except UmaError Unit) (issuer : String) :
    List ProviderInfo → MwState → Nat
  | [], _ => 0
  | pinfo :: rest, st =>
    let g := getProvider st pinfo discover
    (if pinfo.issuer = issuer then g.discoveries else 0)
      + discoveriesFor discover issuer rest g.st

/-! ### Interleaved execution of `middleware.getProvider`

The middleware serves each inbound request on its own flow and guards
`m.providers` with no lock (`middleware` has no mutex field), so two
requests can interleave between the map read (`v, ok :=
m.providers[...]`) and the construct/insert/discover block.  Each map
operation is one atomic step here — a granularity generous to the code,
since racing Go map accesses are themselves faults. -/

/-- Program counter of one request flow inside `getProvider`: before the
cache read, after observing a miss, or finished. -/
inductive ThreadPC where
  | start
  | sawMiss
  | finished
deriving Repr, DecidableEq

/-- One request flow executing `getProvider`. -/
structure ConcThread where
  pinfo : ProviderInfo
  pc : ThreadPC
deriving Repr, DecidableEq

/-- Shared state of two interleaved `getProvider` executions: the
provider cache plus construction/discovery counters. -/
structure ConcState where
  st : MwState
  t0 : ConcThread
  t1 : ConcThread
  constructions : Nat
  discoveries : Nat
deriving Repr, DecidableEq

/-- Run one atomic step of the given flow (`false` = first, `true` =
second): the cache read, or the construct/insert/discover block a flow
performs after it observed a miss. -/
def concStep (cs : ConcState) (tid : Bool) : ConcState :=
  let t := if tid then cs.t1 else cs.t0
  let put : ConcState → ConcThread → ConcState := fun cs1 t1 =>
    if tid then { cs1 with t1 := t1 } else { cs1 with t0 := t1 }
  match t.pc with
  | ThreadPC.finished => cs
  | ThreadPC.start =>
    match mapLookup cs.st.providers t.pinfo.issuer with
    | some _ => put cs { t with pc := ThreadPC.finished }
    | none => put cs { t with pc := ThreadPC.sawMiss }
  | ThreadPC.sawMiss =>
    if t.pinfo.ptype = "keycloak" then
      let p := mkKeycloakProvider t.pinfo
      let cs1 : ConcState :=
        { cs with
          st := { providers := mapInsert cs.st.providers t.pinfo.issuer p },
          constructions := cs.constructions + 1,
          discoveries := cs.discoveries + 1 }
      put cs1 { t with pc := ThreadPC.finished }
    else put cs { t with pc := ThreadPC.finished }

/-- Run a schedule (a list of flow ids) from a concurrent state. -/
def runSchedule (cs : ConcState) : List Bool → ConcState
  | [] => cs
  | tid :: rest => runSchedule (concStep cs tid) rest

/-- Call `RegisterResource` the given number of times sequentially on
one provider, threading the provider state and passing the same
matched resource each time; returns the final provider, the total
number of registration network calls, and each call's `(err,
resource.ID)` observation. -/
def registerRepeat (respond : HttpRequest → Except UmaError HttpResponse)
    (r : Resource) : Nat → BaseProvider →
    BaseProvider × Nat × List (Option UmaError × String)
  | 0, p => (p, 0, [])
  | Nat.succ n, p =>
    let res := RegisterResource p r respond
    let rest := registerRepeat respond r n res.provider
    (rest.1, res.networkCalls + rest.2.1, (res.err, res.resource.id) :: rest.2.2)

/-! ### Concrete fixtures, used by witness theorems -/

/-- A concrete resource type. -/
def exResourceType : ResourceType :=
  { type := "https://t/users", iconUri := "https://t/icon.png",
    resourceScopes := ["read"] }

/-- A concrete resource with an unset ID. -/
def exResource : Resource :=
  { rtype := exResourceType, name := "Users", uri := "/users", id := "" }

/-- A concrete provider with discovered endpoints and an empty
idempotency cache. -/
def exProvider : BaseProvider :=
  { issuer := "as1", clientID := "cid", clientSecret := "sec",
    umaDiscovery := { resourceRegistrationEndpoint := "as1/reg",
                      permissionEndpoint := "as1/perm",
                      tokenEndpoint := "as1/tok" },
    registeredResources := [] }

/-- A transport that answers every request with a 201 carrying a created
ID. -/
def exRespondCreated : HttpRequest → Except UmaError HttpResponse :=
  fun _ => Except.ok { statusCode := 201, body := Json.obj [("_id", Json.str "id1")] }

/-- A transport that answers every request with a 403 error body. -/
def exRespondForbidden : HttpRequest → Except UmaError HttpResponse :=
  fun _ => Except.ok { statusCode := 403, body := Json.str "denied" }

/-- A transport that answers every request with a 201 carrying a
ticket. -/
def exRespondTicket : HttpRequest → Except UmaError HttpResponse :=
  fun _ => Except.ok { statusCode := 201, body := Json.obj [("ticket", Json.str "tck")] }

/-- A concrete Keycloak client. -/
def exKeycloakClient : KeycloakClient :=
  { clientID := "cid", clientSecret := "sec", tokenURL := "as1/tok" }

/-- A concrete RPT request carrying a prior RPT and one permission
string, with everything else unset. -/
def exRPTRequest : RPTRequest :=
  { ticket := "", claimToken := "", claimTokenFormat := "", rpt := "prior",
    permission := ["abc#read"], audience := "",
    responseIncludeResourceName := false, responsePermissionsLimit := 0,
    submitRequest := false }

/-- Fixed credentials returned by the token endpoint. -/
def exCreds : Credentials :=
  { idToken := "", accessToken := "rpt-token", refreshToken := "" }

/-- A token-endpoint transport answering with fixed credentials. -/
def exRespondCreds : FormRequest → Except UmaError Credentials :=
  fun _ => Except.ok exCreds

/-- Concrete provider info for a Keycloak issuer. -/
def exPinfo : ProviderInfo :=
  { issuer := "as1", ptype := "keycloak", clientID := "cid", clientSecret := "sec" }

/-- A `DiscoverUMA` oracle that fails for every issuer. -/
def exDiscoverFail : String → Except UmaError Unit :=
  fun _ => Except.error (UmaError.transport "connection refused")

/-- A `DiscoverUMA` oracle that succeeds for every issuer. -/
def exDiscoverOk : String → Except UmaError Unit :=
  fun _ => Except.ok ()

/-- A matcher that never produces a resource and never rewrites the
request. -/
def exNoMatch : Request → Request × Option Resource :=
  fun r => (r, none)

/-- A matcher that always produces `exResource` without rewriting the
request. -/
def exMatch : Request → Request × Option Resource :=
  fun r => (r, some exResource)

/-- A provider-info resolver that always answers `exPinfo`. -/
def exGetPInfo : Request → ProviderInfo :=
  fun _ => exPinfo

/-- A registration oracle that always succeeds. -/
def exRegisterOk : MProvider → Resource → Option UmaError :=
  fun _ _ => none

/-- A registration oracle that always fails with a protocol error. -/
def exRegisterFail : MProvider → Resource → Option UmaError :=
  fun _ _ => some (UmaError.protocolError 403 (Json.str "denied"))

/-- A concrete inbound request. -/
def exRequest : Request := { path := "/users", provider := none }

/-- Two request flows for the same uncached issuer about to enter
`getProvider`. -/
def exConcInit : ConcState :=
  { st := middlewareInit,
    t0 := { pinfo := exPinfo, pc := ThreadPC.start },
    t1 := { pinfo := exPinfo, pc := ThreadPC.start },
    constructions := 0, discoveries := 0 }

end Uma

namespace Uma

/-! ## Helper lemmas about the Go-map embedding -/

theorem mapLookup_insert {α : Type} (m : List (String × α)) (k i : String) (v : α) :
    mapLookup (mapInsert m k v) i = if k = i then some v else mapLookup m i := by
  induction m with
  | nil => by_cases h : k = i <;> simp [mapInsert, mapLookup, h]
  | cons hd tl ih =>
    obtain ⟨a, b⟩ := hd
    by_cases hak : a = k
    · subst hak
      by_cases h : a = i <;> simp [mapInsert, mapLookup, h]
    · by_cases h : k = i
      · subst h
        simp [mapInsert, mapLookup, hak, ih]
      · simp [mapInsert, mapLookup, hak, ih, h]

theorem mapLookup_insert_self {α : Type} (m : List (String × α)) (k : String) (v : α) :
    mapLookup (mapInsert m k v) k = some v := by
  simp [mapLookup_insert]

/-! ## Claim theorems (with their helper lemmas) -/

/-- C10: calling `Realm` on the shared base provider panics
unconditionally with "Realm unimplemented", for every provider state,
while `Realm` is one of the capabilities of the `Provider` interface. -/
theorem baseProvider_realm_panics (p : BaseProvider) :
    baseProviderRealm p = RealmResult.panicked "Realm unimplemented"
    ∧ ProviderCapability.realm ∈ providerCapabilities :=
  ⟨rfl, by decide⟩

/-- C9: with no lock around the check-cache/construct/discover/insert
sequence, two request flows for the same uncached issuer, interleaved
so that both observe the cache miss before either inserts, both
construct a Provider and both call `DiscoverUMA`: one issuer, two
constructions and two discoveries — refuting mutual exclusion per
issuer and the exactly-K-constructions claim. -/
theorem unsynchronized_getProvider_double_discovery :
    (runSchedule exConcInit [false, true, false, true]).constructions = 2
    ∧ (runSchedule exConcInit [false, true, false, true]).discoveries = 2
    ∧ (runSchedule exConcInit [false, true, false, true]).t0.pc = ThreadPC.finished
    ∧ (runSchedule exConcInit [false, true, false, true]).t1.pc = ThreadPC.finished :=
  ⟨rfl, rfl, rfl, rfl⟩

/-- C1: `middleware.getProvider` inserts the new Provider into the
cache before calling `DiscoverUMA`, so when discovery fails the call
panics with the discovery error while the cache retains the entry for
the issuer, and a later request for the same issuer is bound to the
cached undiscovered Provider with no new `DiscoverUMA` call — the
failed Provider is cached, contrary to the claim. -/
theorem getProvider_caches_failed_discovery :
    (getProvider middlewareInit exPinfo exDiscoverFail).outcome =
      GPOutcome.panicked (PanicReason.discoveryError (UmaError.transport "connection refused"))
    ∧ mapLookup (getProvider middlewareInit exPinfo exDiscoverFail).st.providers "as1"
        = some (mkKeycloakProvider exPinfo)
    ∧ getProvider (getProvider middlewareInit exPinfo exDiscoverFail).st exPinfo exDiscoverFail
        = { outcome := GPOutcome.bound (mkKeycloakProvider exPinfo),
            st := (getProvider middlewareInit exPinfo exDiscoverFail).st,
            constructions := 0, discoveries := 0 } :=
  ⟨rfl, rfl, rfl⟩

/-- C7: when the matcher produces no Resource and leaves the request
unmodified, the middleware handler resolves no provider, performs no
discovery and no registration, leaves the cache untouched, and passes
the request to the downstream handler unmodified. -/
theorem no_match_passthrough (st : MwState)
    (matchFn : Request → Request × Option Resource)
    (getPInfo : Request → ProviderInfo)
    (discover : String → Except UmaError Unit)
    (register : MProvider → Resource → Option UmaError)
    (r : Request) (hm : matchFn r = (r, none)) :
    handleRequest st matchFn getPInfo discover register r =
      { downstream := some r, panicReason := none, st := st,
        constructions := 0, discoveries := 0, registrations := 0 } := by
  simp [handleRequest, hm]

/-- Witness for C7 at a concrete request and matcher. -/
theorem no_match_passthrough_witness :
    handleRequest middlewareInit exNoMatch exGetPInfo exDiscoverOk exRegisterOk exRequest =
      { downstream := some exRequest, panicReason := none, st := middlewareInit,
        constructions := 0, discoveries := 0, registrations := 0 } :=
  no_match_passthrough middlewareInit exNoMatch exGetPInfo exDiscoverOk exRegisterOk
    exRequest rfl

/-- On a cache hit, `RegisterResource` returns the cached ID without a
network call and leaves the provider untouched. -/
theorem RegisterResource_hit (p : BaseProvider) (r : Resource)
    (respond : HttpRequest → Except UmaError HttpResponse) (s : String)
    (h : mapLookup p.registeredResources r.name = some s) :
    RegisterResource p r respond =
      { err := none, resource := { r with id := s }, provider := p, networkCalls := 0 } := by
  simp [RegisterResource, registerResource, h]

/-- On a cache miss with a successful registration call,
`RegisterResource` makes one network call, caches the new ID and sets
it on the resource. -/
theorem RegisterResource_miss_ok (p : BaseProvider) (r : Resource)
    (respond : HttpRequest → Except UmaError HttpResponse) (rid : String)
    (h1 : mapLookup p.registeredResources r.name = none)
    (h2 : registerCall p r respond = Except.ok rid) :
    RegisterResource p r respond =
      { err := none, resource := { r with id := rid },
        provider := { p with
          registeredResources := mapInsert p.registeredResources r.name rid },
        networkCalls := 1 } := by
  simp [RegisterResource, registerResource, h1, h2]

/-- On a cache miss with a failing registration call,
`RegisterResource` makes one network call, returns the error, and
leaves the resource and the provider untouched. -/
theorem RegisterResource_miss_err (p : BaseProvider) (r : Resource)
    (respond : HttpRequest → Except UmaError HttpResponse) (e : UmaError)
    (h1 : mapLookup p.registeredResources r.name = none)
    (h2 : registerCall p r respond = Except.error e) :
    RegisterResource p r respond =
      { err := some e, resource := r, provider := p, networkCalls := 1 } := by
  simp [RegisterResource, registerResource, h1, h2]

/-- Once the resource's name is cached, any number of further
`RegisterResource` calls leave the provider unchanged, make no network
call, and each returns the cached ID without error. -/
theorem registerRepeat_hit (respond : HttpRequest → Except UmaError HttpResponse)
    (r : Resource) (p : BaseProvider) (s : String)
    (h : mapLookup p.registeredResources r.name = some s) :
    ∀ n, registerRepeat respond r n p = (p, 0, List.replicate n (none, s)) := by
  intro n
  induction n with
  | zero => simp [registerRepeat]
  | succ n ih =>
    simp [registerRepeat, RegisterResource_hit p r respond s h, ih, List.replicate_succ]

/-- C2: on a provider that has not yet seen the resource's name, when
the registration network call succeeds with ID `rid`, calling
`RegisterResource` `n + 1` times sequentially performs exactly one
registration network call in total, every call returns without error
observing the identical ID `rid` on the resource, and the only state
change is caching `rid` under the resource's name. -/
theorem RegisterResource_idempotent (p : BaseProvider) (r : Resource)
    (respond : HttpRequest → Except UmaError HttpResponse) (rid : String) (n : Nat)
    (h1 : mapLookup p.registeredResources r.name = none)
    (h2 : registerCall p r respond = Except.ok rid) :
    registerRepeat respond r (n + 1) p =
      ({ p with registeredResources := mapInsert p.registeredResources r.name rid },
       1, List.replicate (n + 1) (none, rid)) := by
  have hfirst := RegisterResource_miss_ok p r respond rid h1 h2
  have hhit : mapLookup
      (mapInsert p.registeredResources r.name rid) r.name = some rid :=
    mapLookup_insert_self _ _ _
  have hrest := registerRepeat_hit respond r
    { p with registeredResources := mapInsert p.registeredResources r.name rid }
    rid hhit n
  simp [registerRepeat, hfirst, hrest, List.replicate_succ]

/-- Witness for C2: three sequential registrations of a fresh resource
against a transport answering 201 with ID `id1` perform one network
call and all three observe `id1`. -/
theorem RegisterResource_idempotent_witness :
    registerRepeat exRespondCreated exResource 3 exProvider =
      ({ exProvider with
          registeredResources := mapInsert exProvider.registeredResources
            exResource.name "id1" },
       1, List.replicate 3 (none, "id1")) :=
  RegisterResource_idempotent exProvider exResource exRespondCreated "id1" 2 rfl rfl

/-- C3: a non-2XX upstream response makes `RegisterResource` return a
protocol error carrying the upstream status and body while leaving the
resource's ID and the provider's idempotency cache exactly as they
were, and makes `RequestPermissionTicket` (which never touches provider
state) return the same kind of protocol error instead of a ticket. -/
theorem protocol_error_leaves_state_unchanged (p : BaseProvider) (r : Resource)
    (respond respond2 : HttpRequest → Except UmaError HttpResponse)
    (resp resp2 : HttpResponse) (rid : String) (scopes : List String)
    (h1 : mapLookup p.registeredResources r.name = none)
    (h2 : respond (registrationRequest p r) = Except.ok resp)
    (h3 : is2XX resp.statusCode = false)
    (h4 : respond2 (permissionTicketRequest p rid scopes) = Except.ok resp2)
    (h5 : is2XX resp2.statusCode = false) :
    RegisterResource p r respond =
      { err := some (UmaError.protocolError resp.statusCode resp.body),
        resource := r, provider := p, networkCalls := 1 }
    ∧ RequestPermissionTicket p rid scopes respond2 =
        Except.error (UmaError.protocolError resp2.statusCode resp2.body) := by
  constructor
  · have hreg : registerCall p r respond =
        Except.error (UmaError.protocolError resp.statusCode resp.body) := by
      simp [registerCall, h2, ensure2XX, h3]
    exact RegisterResource_miss_err p r respond _ h1 hreg
  · simp [RequestPermissionTicket, h4, ensure2XX, h5]

/-- Witness for C3: a 403 response leaves the fresh resource and the
empty cache untouched for both protocol calls. -/
theorem protocol_error_leaves_state_unchanged_witness :
    RegisterResource exProvider exResource exRespondForbidden =
      { err := some (UmaError.protocolError 403 (Json.str "denied")),
        resource := exResource, provider := exProvider, networkCalls := 1 }
    ∧ RequestPermissionTicket exProvider "abc" ["read"] exRespondForbidden =
        Except.error (UmaError.protocolError 403 (Json.str "denied")) :=
  protocol_error_leaves_state_unchanged exProvider exResource exRespondForbidden
    exRespondForbidden { statusCode := 403, body := Json.str "denied" }
    { statusCode := 403, body := Json.str "denied" } "abc" ["read"]
    rfl rfl rfl rfl rfl

/-- C5: `RequestPermissionTicket` posts to the discovered permission
endpoint a single-element JSON array whose element has exactly the
fields `resource_id` and `resource_scopes`; on a 2XX response it
returns the response's `ticket` field unchanged, and on a non-success
status it returns a protocol error instead of a ticket. -/
theorem permission_ticket_roundtrip (p : BaseProvider) (rid : String)
    (scopes : List String)
    (respond : HttpRequest → Except UmaError HttpResponse) (resp : HttpResponse)
    (h : respond (permissionTicketRequest p rid scopes) = Except.ok resp) :
    permissionTicketRequest p rid scopes =
      { method := "POST", url := p.umaDiscovery.permissionEndpoint,
        jsonBody := Json.arr [Json.obj
          [("resource_id", Json.str rid),
           ("resource_scopes", Json.arr (scopes.map Json.str))]] }
    ∧ (∀ fields t, resp.body = Json.obj fields →
        lookupField fields "ticket" = some (Json.str t) →
        is2XX resp.statusCode = true →
        RequestPermissionTicket p rid scopes respond = Except.ok t)
    ∧ (is2XX resp.statusCode = false →
        RequestPermissionTicket p rid scopes respond =
          Except.error (UmaError.protocolError resp.statusCode resp.body)) := by
  refine ⟨rfl, ?_, ?_⟩
  · intro fields t hb ht h2xx
    simp [RequestPermissionTicket, h, ensure2XX, h2xx, decodeTicket, hb, ht]
  · intro hnot
    simp [RequestPermissionTicket, h, ensure2XX, hnot]

/-- Witness for C5 at `RequestPermissionTicket("abc", "read")` against
a transport answering 201 with ticket `tck`. -/
theorem permission_ticket_roundtrip_witness :
    permissionTicketRequest exProvider "abc" ["read"] =
      { method := "POST", url := exProvider.umaDiscovery.permissionEndpoint,
        jsonBody := Json.arr [Json.obj
          [("resource_id", Json.str "abc"),
           ("resource_scopes", Json.arr (["read"].map Json.str))]] }
    ∧ (∀ fields t,
        ({ statusCode := 201,
           body := Json.obj [("ticket", Json.str "tck")] } : HttpResponse).body =
          Json.obj fields →
        lookupField fields "ticket" = some (Json.str t) →
        is2XX 201 = true →
        RequestPermissionTicket exProvider "abc" ["read"] exRespondTicket =
          Except.ok t)
    ∧ (is2XX 201 = false →
        RequestPermissionTicket exProvider "abc" ["read"] exRespondTicket =
          Except.error (UmaError.protocolError 201
            (Json.obj [("ticket", Json.str "tck")]))) :=
  permission_ticket_roundtrip exProvider "abc" ["read"] exRespondTicket
    { statusCode := 201, body := Json.obj [("ticket", Json.str "tck")] } rfl

/-- C4: when the matcher produced a Resource, a failed provider
construction (unsupported type), a failed discovery, or a failed
`RegisterResource` each abort the request: the downstream handler is
never reached on any of the three error paths. -/
theorem failure_aborts_request (st : MwState)
    (matchFn : Request → Request × Option Resource)
    (getPInfo : Request → ProviderInfo)
    (discover : String → Except UmaError Unit)
    (register : MProvider → Resource → Option UmaError)
    (r r1 : Request) (res : Resource)
    (hm : matchFn r = (r1, some res)) :
    ((mapLookup st.providers (getPInfo r1).issuer = none ∧
        ¬(getPInfo r1).ptype = "keycloak") →
      (handleRequest st matchFn getPInfo discover register r).downstream = none)
    ∧ (∀ e, mapLookup st.providers (getPInfo r1).issuer = none →
        (getPInfo r1).ptype = "keycloak" →
        discover (getPInfo r1).issuer = Except.error e →
        (handleRequest st matchFn getPInfo discover register r).downstream = none)
    ∧ (∀ p e, (getProvider st (getPInfo r1) discover).outcome = GPOutcome.bound p →
        register p res = some e →
        (handleRequest st matchFn getPInfo discover register r).downstream = none) := by
  refine ⟨?_, ?_, ?_⟩
  · rintro ⟨hl, ht⟩
    simp [handleRequest, hm, getProvider, hl, ht]
  · intro e hl ht hd
    simp [handleRequest, hm, getProvider, hl, ht, hd]
  · intro p e hb hr
    simp [handleRequest, hm, hb, hr]

/-- Witness for C4 at a concrete matched request whose issuer's
discovery fails. -/
theorem failure_aborts_request_witness :
    ((mapLookup middlewareInit.providers (exGetPInfo exRequest).issuer = none ∧
        ¬(exGetPInfo exRequest).ptype = "keycloak") →
      (handleRequest middlewareInit exMatch exGetPInfo exDiscoverFail exRegisterFail
        exRequest).downstream = none)
    ∧ (∀ e, mapLookup middlewareInit.providers (exGetPInfo exRequest).issuer = none →
        (exGetPInfo exRequest).ptype = "keycloak" →
        exDiscoverFail (exGetPInfo exRequest).issuer = Except.error e →
        (handleRequest middlewareInit exMatch exGetPInfo exDiscoverFail exRegisterFail
          exRequest).downstream = none)
    ∧ (∀ p e,
        (getProvider middlewareInit (exGetPInfo exRequest) exDiscoverFail).outcome =
          GPOutcome.bound p →
        exRegisterFail p exResource = some e →
        (handleRequest middlewareInit exMatch exGetPInfo exDiscoverFail exRegisterFail
          exRequest).downstream = none) :=
  failure_aborts_request middlewareInit exMatch exGetPInfo exDiscoverFail exRegisterFail
    exRequest exRequest exResource rfl

/-- On a cache hit, `middleware.getProvider` binds the cached Provider,
leaves the cache untouched and performs no construction and no
discovery. -/
theorem getProvider_cached (st : MwState) (pinfo : ProviderInfo)
    (discover : String → Except UmaError Unit) (p : MProvider)
    (h : mapLookup st.providers pinfo.issuer = some p) :
    getProvider st pinfo discover =
      { outcome := GPOutcome.bound p, st := st, constructions := 0, discoveries := 0 } := by
  simp [getProvider, h]

/-- On a miss for a supported type, `middleware.getProvider` inserts the
freshly constructed Provider and counts one construction and one
discovery, whatever `DiscoverUMA` answers. -/
theorem getProvider_miss_keycloak (st : MwState) (pinfo : ProviderInfo)
    (discover : String → Except UmaError Unit)
    (hl : mapLookup st.providers pinfo.issuer = none)
    (ht : pinfo.ptype = "keycloak") :
    (getProvider st pinfo discover).st.providers =
      mapInsert st.providers pinfo.issuer (mkKeycloakProvider pinfo)
    ∧ (getProvider st pinfo discover).constructions = 1 := by
  unfold getProvider
  rw [hl, if_pos ht]
  cases discover pinfo.issuer <;> simp

/-- On a miss for an unsupported type, `middleware.getProvider` panics
without constructing, discovering or touching the cache. -/
theorem getProvider_miss_other (st : MwState) (pinfo : ProviderInfo)
    (discover : String → Except UmaError Unit)
    (hl : mapLookup st.providers pinfo.issuer = none)
    (ht : ¬pinfo.ptype = "keycloak") :
    getProvider st pinfo discover =
      { outcome := GPOutcome.panicked (PanicReason.unsupportedProviderType pinfo.ptype),
        st := st, constructions := 0, discoveries := 0 } := by
  simp [getProvider, hl, ht]

/-- Every `getProvider` call performs as many `DiscoverUMA` calls as
Provider constructions. -/
theorem getProvider_discoveries_eq_constructions (st : MwState) (pinfo : ProviderInfo)
    (discover : String → Except UmaError Unit) :
    (getProvider st pinfo discover).discoveries =
      (getProvider st pinfo discover).constructions := by
  unfold getProvider
  cases mapLookup st.providers pinfo.issuer with
  | some v => rfl
  | none =>
    by_cases ht : pinfo.ptype = "keycloak"
    · rw [if_pos ht]
      cases discover pinfo.issuer <;> rfl
    · rw [if_neg ht]

/-- A `getProvider` call never evicts an issuer from the cache. -/
theorem getProvider_preserves_cached (st : MwState) (pinfo : ProviderInfo)
    (discover : String → Except UmaError Unit) (i : String)
    (h : (mapLookup st.providers i).isSome) :
    (mapLookup (getProvider st pinfo discover).st.providers i).isSome := by
  cases hl : mapLookup st.providers pinfo.issuer with
  | some v => simpa [getProvider_cached st pinfo discover v hl] using h
  | none =>
    by_cases ht : pinfo.ptype = "keycloak"
    · rw [(getProvider_miss_keycloak st pinfo discover hl ht).1, mapLookup_insert]
      split
      · rfl
      · exact h
    · simpa [getProvider_miss_other st pinfo discover hl ht] using h

/-- Once an issuer is cached, a sequence of `getProvider` calls
performs no construction for it. -/
theorem constructionsFor_zero_of_cached (discover : String → Except UmaError Unit)
    (issuer : String) (calls : List ProviderInfo) :
    ∀ st : MwState, (mapLookup st.providers issuer).isSome →
      constructionsFor discover issuer calls st = 0 := by
  induction calls with
  | nil => intro st _; simp [constructionsFor]
  | cons pinfo rest ih =>
    intro st h
    unfold constructionsFor
    have hrest := ih _ (getProvider_preserves_cached st pinfo discover issuer h)
    by_cases hi : pinfo.issuer = issuer
    · subst hi
      obtain ⟨v, hv⟩ := Option.isSome_iff_exists.mp h
      have hc := getProvider_cached st pinfo discover v hv
      rw [hc] at hrest
      simp [hc, hrest]
    · simp [hi, hrest]

/-- Over any sequence of `getProvider` calls from any cache state, at
most one Provider construction happens per issuer. -/
theorem constructionsFor_le_one (discover : String → Except UmaError Unit)
    (issuer : String) (calls : List ProviderInfo) :
    ∀ st : MwState, constructionsFor discover issuer calls st ≤ 1 := by
  induction calls with
  | nil => intro st; simp [constructionsFor]
  | cons pinfo rest ih =>
    intro st
    unfold constructionsFor
    cases hl : mapLookup st.providers pinfo.issuer with
    | some v =>
      have hc := getProvider_cached st pinfo discover v hl
      simpa [hc] using ih st
    | none =>
      by_cases ht : pinfo.ptype = "keycloak"
      · have hmk := getProvider_miss_keycloak st pinfo discover hl ht
        by_cases hi : pinfo.issuer = issuer
        · subst hi
          have hcached :
              (mapLookup (getProvider st pinfo discover).st.providers
                pinfo.issuer).isSome := by
            rw [hmk.1, mapLookup_insert_self]; rfl
          have hz := constructionsFor_zero_of_cached discover pinfo.issuer rest _ hcached
          simp [hmk.2, hz]
        · simpa [hi] using ih _
      · have hc := getProvider_miss_other st pinfo discover hl ht
        simpa [hc] using ih st

/-- A sequence of `getProvider` calls performs as many `DiscoverUMA`
calls as constructions per issuer. -/
theorem discoveriesFor_eq_constructionsFor (discover : String → Except UmaError Unit)
    (issuer : String) (calls : List ProviderInfo) :
    ∀ st : MwState, discoveriesFor discover issuer calls st =
      constructionsFor discover issuer calls st := by
  induction calls with
  | nil => intro st; simp [discoveriesFor, constructionsFor]
  | cons pinfo rest ih =>
    intro st
    show (if pinfo.issuer = issuer then (getProvider st pinfo discover).discoveries else 0)
          + discoveriesFor discover issuer rest (getProvider st pinfo discover).st =
        (if pinfo.issuer = issuer then (getProvider st pinfo discover).constructions else 0)
          + constructionsFor discover issuer rest (getProvider st pinfo discover).st
    rw [ih, getProvider_discoveries_eq_constructions]

/-- C8: on a middleware instance started with an empty cache, any
sequence of `getProvider` calls constructs at most one Provider and
performs at most one `DiscoverUMA` call per issuer; and whenever an
issuer is present in the cache, the call for it binds the existing
Provider instance, leaves the cache untouched and triggers no
construction and no discovery. -/
theorem provider_constructed_at_most_once
    (discover : String → Except UmaError Unit) (issuer : String)
    (calls : List ProviderInfo) (st : MwState) (pinfo : ProviderInfo) (p : MProvider)
    (h : mapLookup st.providers pinfo.issuer = some p) :
    constructionsFor discover issuer calls middlewareInit ≤ 1
    ∧ discoveriesFor discover issuer calls middlewareInit ≤ 1
    ∧ getProvider st pinfo discover =
        { outcome := GPOutcome.bound p, st := st,
          constructions := 0, discoveries := 0 } :=
  ⟨constructionsFor_le_one discover issuer calls middlewareInit,
   by
    rw [discoveriesFor_eq_constructionsFor]
    exact constructionsFor_le_one discover issuer calls middlewareInit,
   getProvider_cached st pinfo discover p h⟩

/-- Witness for C8: two repeated calls for one issuer from a fresh
instance, and a cache-hit call on a state already holding the issuer. -/
theorem provider_constructed_at_most_once_witness :
    constructionsFor exDiscoverOk "as1" [exPinfo, exPinfo] middlewareInit ≤ 1
    ∧ discoveriesFor exDiscoverOk "as1" [exPinfo, exPinfo] middlewareInit ≤ 1
    ∧ getProvider { providers := [("as1", mkKeycloakProvider exPinfo)] } exPinfo
        exDiscoverOk =
        { outcome := GPOutcome.bound (mkKeycloakProvider exPinfo),
          st := { providers := [("as1", mkKeycloakProvider exPinfo)] },
          constructions := 0, discoveries := 0 } :=
  provider_constructed_at_most_once exDiscoverOk "as1" [exPinfo, exPinfo]
    { providers := [("as1", mkKeycloakProvider exPinfo)] } exPinfo
    (mkKeycloakProvider exPinfo) rfl

/-- Removing one key from form values leaves every other key's lookup
unchanged. -/
theorem getValue_removeKey (vs : List (String × List String)) (k i : String)
    (h : ¬i = k) :
    getValue (removeKey vs k) i = getValue vs i := by
  induction vs with
  | nil => simp [removeKey]
  | cons hd tl ih =>
    obtain ⟨x, y⟩ := hd
    by_cases hx : x = k
    · subst hx
      simp [removeKey, getValue, Ne.symm h, ih]
    · by_cases hxi : x = i <;> simp [removeKey, getValue, hx, hxi, ih, h]

/-- An optional form entry for a different key is transparent to
lookup. -/
theorem getValue_entry_skip (c : Prop) [Decidable c] (k : String) (v : List String)
    (rest : List (String × List String)) (i : String) (h : ¬i = k) :
    getValue ((if c then [] else [(k, v)]) ++ rest) i = getValue rest i := by
  split
  · simp
  · simp [getValue, Ne.symm h]

/-- A trailing optional form entry for a different key yields nothing. -/
theorem getValue_entry_last (c : Prop) [Decidable c] (k : String) (v : List String)
    (i : String) (h : ¬i = k) :
    getValue (if c then [] else [(k, v)]) i = none := by
  split <;> simp [getValue, Ne.symm h]

/-- An optional form entry for the looked-up key yields its value
exactly when present, given the key does not recur later. -/
theorem getValue_entry_self (c : Prop) [Decidable c] (k : String) (v : List String)
    (rest : List (String × List String)) (hrest : getValue rest k = none) :
    getValue ((if c then [] else [(k, v)]) ++ rest) k = if c then none else some v := by
  split
  · simpa using hrest
  · simp [getValue]

/-- The encoded form carries `rpt` exactly when the request provides
it. -/
theorem getValue_toValues_rpt (r : RPTRequest) :
    getValue (toValues r) "rpt" = if r.rpt = "" then none else some [r.rpt] := by
  unfold toValues
  simp only [List.append_assoc]
  rw [getValue_entry_skip _ "ticket" _ _ "rpt" (by decide),
      getValue_entry_skip _ "claim_token" _ _ "rpt" (by decide),
      getValue_entry_skip _ "claim_token_format" _ _ "rpt" (by decide),
      getValue_entry_self _ "rpt" _ _ (by
        rw [getValue_entry_skip _ "permission" _ _ "rpt" (by decide),
            getValue_entry_skip _ "audience" _ _ "rpt" (by decide),
            getValue_entry_skip _ "response_include_resource_name" _ _ "rpt" (by decide),
            getValue_entry_skip _ "response_permissions_limit" _ _ "rpt" (by decide)]
        exact getValue_entry_last _ "submit_request" _ "rpt" (by decide))]

/-- The encoded form carries `permission` exactly when the request
provides permission strings. -/
theorem getValue_toValues_permission (r : RPTRequest) :
    getValue (toValues r) "permission" =
      if r.permission = [] then none else some r.permission := by
  unfold toValues
  simp only [List.append_assoc]
  rw [getValue_entry_skip _ "ticket" _ _ "permission" (by decide),
      getValue_entry_skip _ "claim_token" _ _ "permission" (by decide),
      getValue_entry_skip _ "claim_token_format" _ _ "permission" (by decide),
      getValue_entry_skip _ "rpt" _ _ "permission" (by decide),
      getValue_entry_self _ "permission" _ _ (by
        rw [getValue_entry_skip _ "audience" _ _ "permission" (by decide),
            getValue_entry_skip _ "response_include_resource_name" _ _ "permission"
              (by decide),
            getValue_entry_skip _ "response_permissions_limit" _ _ "permission"
              (by decide)]
        exact getValue_entry_last _ "submit_request" _ "permission" (by decide))]

/-- The encoded form carries `ticket` exactly when the request provides
it. -/
theorem getValue_toValues_ticket (r : RPTRequest) :
    getValue (toValues r) "ticket" = if r.ticket = "" then none else some [r.ticket] := by
  unfold toValues
  simp only [List.append_assoc]
  rw [getValue_entry_self _ "ticket" _ _ (by
        rw [getValue_entry_skip _ "claim_token" _ _ "ticket" (by decide),
            getValue_entry_skip _ "claim_token_format" _ _ "ticket" (by decide),
            getValue_entry_skip _ "rpt" _ _ "ticket" (by decide),
            getValue_entry_skip _ "permission" _ _ "ticket" (by decide),
            getValue_entry_skip _ "audience" _ _ "ticket" (by decide),
            getValue_entry_skip _ "response_include_resource_name" _ _ "ticket"
              (by decide),
            getValue_entry_skip _ "response_permissions_limit" _ _ "ticket" (by decide)]
        exact getValue_entry_last _ "submit_request" _ "ticket" (by decide))]

/-- The encoded form carries `audience` exactly when the request
provides it. -/
theorem getValue_toValues_audience (r : RPTRequest) :
    getValue (toValues r) "audience" =
      if r.audience = "" then none else some [r.audience] := by
  unfold toValues
  simp only [List.append_assoc]
  rw [getValue_entry_skip _ "ticket" _ _ "audience" (by decide),
      getValue_entry_skip _ "claim_token" _ _ "audience" (by decide),
      getValue_entry_skip _ "claim_token_format" _ _ "audience" (by decide),
      getValue_entry_skip _ "rpt" _ _ "audience" (by decide),
      getValue_entry_skip _ "permission" _ _ "audience" (by decide),
      getValue_entry_self _ "audience" _ _ (by
        rw [getValue_entry_skip _ "response_include_resource_name" _ _ "audience"
              (by decide),
            getValue_entry_skip _ "response_permissions_limit" _ _ "audience"
              (by decide)]
        exact getValue_entry_last _ "submit_request" _ "audience" (by decide))]

/-- Looking up any key other than `grant_type` in the outbound form is
looking it up in the encoded request. -/
theorem rptFormRequest_form_other (kc : KeycloakClient) (accessToken : String)
    (req : RPTRequest) (i : String) (hi : ¬i = "grant_type") :
    getValue (rptFormRequest kc accessToken req).form i = getValue (toValues req) i := by
  show getValue (("grant_type", ["urn:ietf:params:oauth:grant-type:uma-ticket"]) ::
      removeKey (toValues req) "grant_type") i = getValue (toValues req) i
  simp only [getValue]
  rw [if_neg (Ne.symm hi), getValue_removeKey _ _ _ hi]

/-- C6: `RequestRPT` posts a form to the token endpoint with
`grant_type` set to the UMA ticket grant and the bearer access token in
the Authorization header; a provided prior RPT, permission strings,
ticket or audience are encoded under their form keys while unset ones
are omitted entirely; and the response's access token is returned
verbatim. -/
theorem request_rpt_exchange (kc : KeycloakClient) (accessToken : String)
    (req : RPTRequest) (respond : FormRequest → Except UmaError Credentials)
    (tok : Credentials)
    (h : respond (rptFormRequest kc accessToken req) = Except.ok tok) :
    (rptFormRequest kc accessToken req).url = kc.tokenURL
    ∧ (rptFormRequest kc accessToken req).authorization =
        some ("Bearer " ++ accessToken)
    ∧ getValue (rptFormRequest kc accessToken req).form "grant_type" =
        some ["urn:ietf:params:oauth:grant-type:uma-ticket"]
    ∧ getValue (rptFormRequest kc accessToken req).form "rpt" =
        (if req.rpt = "" then none else some [req.rpt])
    ∧ getValue (rptFormRequest kc accessToken req).form "permission" =
        (if req.permission = [] then none else some req.permission)
    ∧ getValue (rptFormRequest kc accessToken req).form "ticket" =
        (if req.ticket = "" then none else some [req.ticket])
    ∧ getValue (rptFormRequest kc accessToken req).form "audience" =
        (if req.audience = "" then none else some [req.audience])
    ∧ RequestRPT kc accessToken req respond = Except.ok tok.accessToken := by
  refine ⟨rfl, rfl, by simp [rptFormRequest, setValue, getValue], ?_, ?_, ?_, ?_, ?_⟩
  · rw [rptFormRequest_form_other kc accessToken req "rpt" (by decide),
        getValue_toValues_rpt]
  · rw [rptFormRequest_form_other kc accessToken req "permission" (by decide),
        getValue_toValues_permission]
  · rw [rptFormRequest_form_other kc accessToken req "ticket" (by decide),
        getValue_toValues_ticket]
  · rw [rptFormRequest_form_other kc accessToken req "audience" (by decide),
        getValue_toValues_audience]
  · simp [RequestRPT, h]

/-- Witness for C6 at a request carrying a prior RPT and the permission
string `abc#read`, with everything else unset. -/
theorem request_rpt_exchange_witness :
    (rptFormRequest exKeycloakClient "at1" exRPTRequest).url = exKeycloakClient.tokenURL
    ∧ (rptFormRequest exKeycloakClient "at1" exRPTRequest).authorization =
        some ("Bearer " ++ "at1")
    ∧ getValue (rptFormRequest exKeycloakClient "at1" exRPTRequest).form "grant_type" =
        some ["urn:ietf:params:oauth:grant-type:uma-ticket"]
    ∧ getValue (rptFormRequest exKeycloakClient "at1" exRPTRequest).form "rpt" =
        (if exRPTRequest.rpt = "" then none else some [exRPTRequest.rpt])
    ∧ getValue (rptFormRequest exKeycloakClient "at1" exRPTRequest).form "permission" =
        (if exRPTRequest.permission = [] then none else some exRPTRequest.permission)
    ∧ getValue (rptFormRequest exKeycloakClient "at1" exRPTRequest).form "ticket" =
        (if exRPTRequest.ticket = "" then none else some [exRPTRequest.ticket])
    ∧ getValue (rptFormRequest exKeycloakClient "at1" exRPTRequest).form "audience" =
        (if exRPTRequest.audience = "" then none else some [exRPTRequest.audience])
    ∧ RequestRPT exKeycloakClient "at1" exRPTRequest exRespondCreds =
        Except.ok exCreds.accessToken :=
  request_rpt_exchange exKeycloakClient "at1" exRPTRequest exRespondCreds exCreds rfl

end Uma
